import Mathlib

set_option maxRecDepth 4000

/-!
Shallow embedding of `ecg2scp.py` (class `ECGBasic` and its `export_scp`
method) from the `ecg-contec` repository, together with the low-level
primitives of the sibling module `ecg_scp` that `ecg2scp.py` imports.

Byte strings are modelled as `List Nat` with every entry `< 256`; the
packing helpers reduce modulo 256 per byte exactly where `struct.pack`
would emit that byte.  `struct.pack` raises `struct.error` on values
outside the declared range; wherever a packed value is not obviously in
range, the builder returns `Option` and yields `none` in exactly the
situations where the Python code raises.
-/

/-- Little-endian bytes of `struct.pack('<B', n)`. -/
def u8 (n : Nat) : List Nat := [n % 256]

/-- Little-endian bytes of `struct.pack('<H', n)`. -/
def u16le (n : Nat) : List Nat := [n % 256, n / 256 % 256]

/-- Little-endian bytes of `struct.pack('<I', n)`. -/
def u32le (n : Nat) : List Nat :=
  [n % 256, n / 256 % 256, n / 65536 % 256, n / 16777216 % 256]

/-- Little-endian bytes of `struct.pack('<h', z)` for an in-range signed
value: two bytes of the two's-complement representation `z mod 2^16`. -/
def i16le (z : Int) : List Nat := u16le ((z % 65536).toNat)

/-- The range accepted by `struct.pack('<h', ·)`; out-of-range values make
`struct.pack` raise `struct.error`. -/
def int16ok (z : Int) : Prop := -32768 ≤ z ∧ z < 32768

instance (z : Int) : Decidable (int16ok z) := by unfold int16ok; infer_instance

/-- One shift-and-conditionally-xor step of the CRC-CCITT register
(polynomial `0x1021`, most significant bit first), kept in 16 bits. -/
def crcShiftBit (c : Nat) : Nat :=
  if c &&& 32768 ≠ 0 then ((c <<< 1) ^^^ 4129) % 65536 else (c <<< 1) % 65536

/-- Feed one byte into the CRC register: xor it into the high byte, then
run eight register steps.  This is the per-byte action of Python's
`binascii.crc_hqx` (CRC-CCITT/XModem, no final xor). -/
def crcByte (c b : Nat) : Nat :=
  crcShiftBit (crcShiftBit (crcShiftBit (crcShiftBit
    (crcShiftBit (crcShiftBit (crcShiftBit (crcShiftBit
      (c ^^^ ((b % 256) <<< 8)))))))))

/-- `binascii.crc_hqx(data, value)`: CRC-CCITT (XModem variant) of the byte
string `data` starting from register `value`, no final xor. -/
def crc_hqx (data : List Nat) (value : Nat) : Nat :=
  data.foldl crcByte (value % 65536)

/-! ### Constants and primitives of the `ecg_scp` module

The module `ecg_scp` is part of the repository but its source is not under
`src/`; the definitions below are modelled from the spec.  The spec fixes
the contracts (§6): fixed-width pointer entries, tag/length/value fields,
null-terminated strings, a section wrapper that prefixes the payload with
the standard section header, and standard-mandated constants whose exact
values come from the SCP-ECG (EN 1064) standard. -/

/-- Modelled from the spec: length of the fixed record preamble
(2-byte CRC + 4-byte size), the standard `SCPECG_HEADER_LEN`. -/
def SCPECG_HEADER_LEN : Nat := 6

/-- Modelled from the spec: length of the standard 16-byte section header
(section CRC, id, length, version, protocol, reserved). -/
def SECTION_HEADER_LEN : Nat := 16

/-- Modelled from the spec: width of one Section 0 pointer entry
(2-byte id + 4-byte length + 4-byte offset). -/
def POINTER_FIELD_LEN : Nat := 10

/-- Modelled from the spec: `make_pointer_field(section_id, length, offset)`,
the fixed-width pointer entry encoder. -/
def make_pointer_field (sect_id length index : Nat) : List Nat :=
  u16le sect_id ++ u32le length ++ u32le index

/-- Modelled from the spec: `make_tag(tag_id, value_bytes)`, the
tag/length/value encoder of Section 1 fields (1-byte tag, 2-byte length). -/
def make_tag (tag : Nat) (value : List Nat) : List Nat :=
  u8 tag ++ u16le value.length ++ value

/-- Modelled from the spec: `make_asciiz(string)`, the null-terminated
string encoder (ASCII code points, one byte each, then a 0 byte). -/
def make_asciiz (s : String) : List Nat :=
  s.data.map (fun c => c.toNat % 256) ++ [0]

/-- Modelled from the spec: `make_3bytes_intval_unit(value, unit)`, the
fixed-width value+unit encoder (2-byte value, 1-byte unit). -/
def make_3bytes_intval_unit (value unit : Nat) : List Nat :=
  u16le value ++ u8 unit

/-- Calendar timestamp with second resolution (model of
`datetime.datetime`). -/
structure Timestamp where
  year : Nat
  month : Nat
  day : Nat
  hour : Nat
  minute : Nat
  second : Nat
deriving DecidableEq

/-- Modelled from the spec: `make_date(timestamp)` calendar encoder. -/
def make_date (t : Timestamp) : List Nat :=
  u16le t.year ++ u8 t.month ++ u8 t.day

/-- Modelled from the spec: `make_time(timestamp)` calendar encoder. -/
def make_time (t : Timestamp) : List Nat :=
  u8 t.hour ++ u8 t.minute ++ u8 t.second

/-- Modelled from the spec: `make_machine_id(string)`, the device
identifier encoder (a deterministic byte encoding of the name). -/
def make_machine_id (s : String) : List Nat :=
  make_asciiz s

/-- Modelled from the spec: `pack_section(section_id, payload)` prefixes the
payload with the standard 16-byte section header: a 2-byte section CRC over
the rest of the section, the 2-byte id, the 4-byte total length
(header + payload), version and protocol bytes, and 6 reserved bytes. -/
def pack_section (sect_id : Nat) (payload : List Nat) : List Nat :=
  u16le (crc_hqx (u16le sect_id ++ u32le (SECTION_HEADER_LEN + payload.length)
      ++ u8 1 ++ u8 1 ++ List.replicate 6 0 ++ payload) 65535)
    ++ u16le sect_id ++ u32le (SECTION_HEADER_LEN + payload.length)
    ++ u8 1 ++ u8 1 ++ List.replicate 6 0 ++ payload

/-- Modelled from the spec: the standard 1-byte lead codes referenced by
`LEADS_ORDER_GENERAL` (values per the SCP-ECG standard). -/
def leadCodeList : List Nat := [1, 2, 61, 62, 63, 64, 3, 4, 5, 6, 7, 8]

/-- `LEADS_ORDER_GENERAL`: the fixed dict mapping lead index 0..11 to the
standard lead code for the order I,II,III,aVR,aVL,aVF,V1..V6
(`ecg2scp.py` lines 8-21); a lookup outside the domain is a `KeyError`. -/
def LEADS_ORDER_GENERAL (i : Nat) : Option Nat := leadCodeList.get? i

/-- The standard lead code at index `i` of the table (total version, used
to state equations under the hypothesis `i < 12`). -/
def leadCode (i : Nat) : Nat := leadCodeList.getD i 0

/-- Modelled from the spec: sex codes (0 = unknown, 1 = male, 2 = female). -/
def SEX_UNKNOWN : Nat := 0

/-- Modelled from the spec: sex code for male. -/
def SEX_MALE : Nat := 1

/-- Modelled from the spec: sex code for female. -/
def SEX_FEMALE : Nat := 2

/-- Modelled from the spec: weight unit code for an unspecified weight. -/
def WEIGHT_UNSPECIFIED : Nat := 0

/-- Modelled from the spec: weight unit code for kilograms. -/
def WEIGHT_KILOGRAM : Nat := 1

/-- Modelled from the spec: age unit code for an unspecified age. -/
def AGE_UNSPECIFIED : Nat := 0

/-- Modelled from the spec: age unit code for years. -/
def AGE_YEARS : Nat := 1

/-- Modelled from the spec: Section 6 encoding-type byte "real". -/
def ENCODING_REAL : Nat := 0

/-- Modelled from the spec: Section 6 bimodal-compression flag "false". -/
def BIMODAL_COMPRESSION_FALSE : Nat := 0

/-- Modelled from the spec: Section 3 flag bit "all leads simultaneously
acquired" (bit 2 of the flag byte). -/
def ALL_SIMULTANEOUS_READ : Nat := 4

/-- Modelled from the spec: Section 1 tag id for the patient identifier. -/
def TAG_PATIENT_ID : Nat := 2

/-- Modelled from the spec: Section 1 tag id for the ECG sequence number. -/
def TAG_ECG_SEQ_NUM : Nat := 21

/-- Modelled from the spec: Section 1 tag id for the patient last name. -/
def TAG_PATIENT_LAST_NAME : Nat := 0

/-- Modelled from the spec: Section 1 tag id for the patient sex. -/
def TAG_PATIENT_SEX : Nat := 8

/-- Modelled from the spec: Section 1 tag id for the patient weight. -/
def TAG_PATIENT_WEIGHT : Nat := 7

/-- Modelled from the spec: Section 1 tag id for the patient age. -/
def TAG_PATIENT_AGE : Nat := 4

/-- Modelled from the spec: Section 1 tag id for the acquisition date. -/
def TAG_DATE_ACQ : Nat := 25

/-- Modelled from the spec: Section 1 tag id for the acquisition time. -/
def TAG_TIME_ACQ : Nat := 26

/-- Modelled from the spec: Section 1 tag id for the acquiring device id. -/
def TAG_ACQ_DEV_ID : Nat := 14

/-- Modelled from the spec: Section 1 terminator tag id. -/
def TAG_EOF : Nat := 255

/-! ### The data model of `ecg2scp.py` -/

/-- The `np.array(dtype=np.int32)` recording: shape `(n_leads, n_samples)`
plus the sample values (a total function; only indices inside the shape are
ever read). -/
structure RecData where
  n_leads : Nat
  n_samples : Nat
  data : Nat → Nat → Int

/-- The attributes of an `ECGBasic` instance after `__init__`
(`ecg2scp.py` lines 26-50). -/
structure ECGBasic where
  data : RecData
  sample_bits : Nat
  sample_rate : Nat
  ampl_nanovolt : Nat
  timestamp : Timestamp
  patient_name : String
  patient_case : String
  patient_sex : Int
  patient_weight : Nat
  patient_age : Nat

/-- The `n_leads` property: reads `self.data.shape[0]` (lines 52-54). -/
def ECGBasic.n_leads (e : ECGBasic) : Nat := e.data.n_leads

/-- The `n_samples` property: reads `self.data.shape[1]` (lines 56-58). -/
def ECGBasic.n_samples (e : ECGBasic) : Nat := e.data.n_samples

/-- An `ECGBasic` built from a given (non-`None`) data array: `__init__`
stores the array and assigns the constant defaults of lines 38-50. -/
def ECGBasic.ofData (d : RecData) : ECGBasic where
  data := d
  sample_bits := 16
  sample_rate := 500
  ampl_nanovolt := 5000
  timestamp := ⟨2022, 1, 1, 1, 1, 1⟩
  patient_name := "anonymized"
  patient_case := "unknown_case"
  patient_sex := 0
  patient_weight := 0
  patient_age := 0

/-- `ECGBasic.__init__(data)` (line 36): the default-data expression
`np.zeros((self.n_leads, self.n_samples), ...) if data is None else data`
evaluates `self.n_leads` / `self.n_samples` in the `None` branch, and those
properties read `self.data` — which has not been assigned yet, so the
attribute read fails (`AttributeError`); only the non-`None` branch can
complete.  The not-yet-assigned attribute is the `none` state below. -/
def ECGBasic.init (arg : Option RecData) : Option ECGBasic :=
  let unassigned : Option RecData := none
  let dataVal : Option RecData :=
    match arg with
    | none => unassigned.bind fun cur =>
        some ⟨cur.n_leads, cur.n_samples, fun _ _ => 0⟩
    | some d => some d
  dataVal.map ECGBasic.ofData

/-! ### `ECGBasic.export_scp` (lines 60-164) -/

/-- The Section 0 pointer-entry loop of lines 73-83: one entry for section
0 (declared length `SECTION_HEADER_LEN + 12 * POINTER_FIELD_LEN`, offset
`SCPECG_HEADER_LEN + 1`), then one entry per section id 1..11 whose
declared length is the given payload length plus `SECTION_HEADER_LEN` when
the payload is non-empty, the running offset advancing by each declared
length. -/
def pointerEntries (payloadLen : Nat → Nat) : List Nat :=
  (((List.range 11).map (· + 1)).foldl
    (fun acc sect_id =>
      let length :=
        if 0 < payloadLen sect_id
          then payloadLen sect_id + SECTION_HEADER_LEN
          else payloadLen sect_id
      (acc.1 ++ make_pointer_field sect_id length acc.2, acc.2 + length))
    (make_pointer_field 0 (SECTION_HEADER_LEN + POINTER_FIELD_LEN * 12)
       (SCPECG_HEADER_LEN + 1),
     SCPECG_HEADER_LEN + 1 + (SECTION_HEADER_LEN + POINTER_FIELD_LEN * 12))).1

/-- `s[0]` as the source builds it: the pointer table is prepared at lines
68-83, BEFORE sections 1, 3 and 6 are filled in, so at that point every
`s[sect_id]` for `sect_id` in 1..11 is still the empty byte string and
every payload length read by the loop is 0. -/
def section0 : List Nat := pointerEntries (fun _ => 0)

/-- The `sex_code` selection of lines 87-92. -/
def sexCode (sex : Int) : Nat :=
  if sex = 1 then SEX_MALE else if sex = 0 then SEX_FEMALE else SEX_UNKNOWN

/-- The `weight_unit` selection of line 94. -/
def weightUnit (w : Nat) : Nat :=
  if w = 0 then WEIGHT_UNSPECIFIED else WEIGHT_KILOGRAM

/-- The `age_unit` selection of line 96. -/
def ageUnit (a : Nat) : Nat :=
  if a = 0 then AGE_UNSPECIFIED else AGE_YEARS

/-- The (tag, value) pairs appended to `s[1]`, in the order of lines
99-108. -/
def section1Tags (e : ECGBasic) : List (Nat × List Nat) :=
  [(TAG_PATIENT_ID, make_asciiz e.patient_name),
   (TAG_ECG_SEQ_NUM, make_asciiz e.patient_case),
   (TAG_PATIENT_LAST_NAME, make_asciiz e.patient_name),
   (TAG_PATIENT_SEX, u8 (sexCode e.patient_sex)),
   (TAG_PATIENT_WEIGHT,
     make_3bytes_intval_unit e.patient_weight (weightUnit e.patient_weight)),
   (TAG_PATIENT_AGE,
     make_3bytes_intval_unit e.patient_age (ageUnit e.patient_age)),
   (TAG_DATE_ACQ, make_date e.timestamp),
   (TAG_TIME_ACQ, make_time e.timestamp),
   (TAG_ACQ_DEV_ID, make_machine_id ("unknown_machine")),
   (TAG_EOF, [])]

/-- `s[1]`, the Section 1 payload: the concatenation of the tagged fields
of lines 99-108. -/
def section1 (e : ECGBasic) : List Nat :=
  (section1Tags e).foldl (fun acc p => acc ++ make_tag p.1 p.2) []

/-- The per-lead body of the Section 3 loop (lines 117-123): pack
`starting_sample = 1` and `ending_sample = self.n_samples` as `'<I'` (a
`struct.error` when `n_samples` does not fit 32 bits) and the lead code
looked up in `LEADS_ORDER_GENERAL` (a `KeyError` when `i` is outside the
table). -/
def packLeadEntries (e : ECGBasic) : List Nat → Option (List Nat)
  | [] => some []
  | i :: is =>
    (LEADS_ORDER_GENERAL i).bind fun lead_id =>
      if e.n_samples < 4294967296 then
        (packLeadEntries e is).map
          (fun rest => u32le 1 ++ u32le e.n_samples ++ u8 lead_id ++ rest)
      else none

/-- `s[3]`, the Section 3 payload (lines 110-123): lead count byte, flag
byte `ALL_SIMULTANEOUS_READ ||| (leads_number <<< 3)`, then the per-lead
entries for `i in range(leads_number)`. -/
def section3 (e : ECGBasic) : Option (List Nat) :=
  (packLeadEntries e (List.range e.n_leads)).map
    (fun entries =>
      u8 e.n_leads
        ++ u8 (ALL_SIMULTANEOUS_READ ||| (e.n_leads <<< 3))
        ++ entries)

/-- `max_samples = int(0xffff / 2)` (line 134). -/
def max_samples : Nat := 65535 / 2

/-- `n_samples = min(self.n_samples, max_samples)` (line 135): the number
of samples actually encoded per lead. -/
def cappedSamples (e : ECGBasic) : Nat := min e.n_samples max_samples

/-- The inner sample loop of lines 141-143 over a given index list: each
sample is packed with `'<h'` (a `struct.error` when it does not fit a
signed 16-bit value). -/
def packSamples (row : Nat → Int) : List Nat → Option (List Nat)
  | [] => some []
  | j :: js =>
    if int16ok (row j) then
      (packSamples row js).map (fun rest => i16le (row j) ++ rest)
    else none

/-- The outer series loop of lines 140-144: for each lead index in the
list, the `cappedSamples` first samples of that lead, concatenated. -/
def packAllSeries (e : ECGBasic) : List Nat → Option (List Nat)
  | [] => some []
  | i :: is =>
    (packSamples (e.data.data i) (List.range (cappedSamples e))).bind
      fun serie => (packAllSeries e is).map (fun rest => serie ++ rest)

/-- `s[6]`, the Section 6 payload (lines 125-144): amplitude multiplier and
sample time interval (each packed `'<H'`, a `struct.error` when out of
16-bit range, and a `ZeroDivisionError` when the sample rate is 0), the
encoding and bimodal-compression bytes, one `bytes_to_store` 16-bit field
per lead, then the per-lead series. -/
def section6 (e : ECGBasic) : Option (List Nat) :=
  if 0 < e.sample_rate ∧ e.ampl_nanovolt < 65536
      ∧ 1000000 / e.sample_rate < 65536 then
    (packAllSeries e (List.range e.n_leads)).map
      (fun series =>
        u16le e.ampl_nanovolt
          ++ u16le (1000000 / e.sample_rate)
          ++ u8 ENCODING_REAL
          ++ u8 BIMODAL_COMPRESSION_FALSE
          ++ ((List.range e.n_leads).map
                (fun _ => u16le (2 * cappedSamples e))).flatten
          ++ series)
  else none

/-- The `s` dict as it stands after all section payloads are built: `s[0]`
is the (stale) pointer table, `s[1]`, `s[3]`, `s[6]` the built payloads,
and every other id still the empty byte string. -/
def sDict (e : ECGBasic) (s3 s6 : List Nat) : Nat → List Nat := fun id =>
  if id = 0 then section0
  else if id = 1 then section1 e
  else if id = 3 then s3
  else if id = 6 then s6
  else []

/-- Lines 150-157: the record `scp_ecg` = 4-byte size followed by
`pack_section` of every section in `(0, 1, 2, 3, 6)` whose payload is
non-empty, where the size is `SCPECG_HEADER_LEN` plus header+payload
length of each such section. -/
def assembleRecord (e : ECGBasic) (s3 s6 : List Nat) : List Nat :=
  u32le ([0, 1, 2, 3, 6].foldl
      (fun acc id =>
        if 0 < (sDict e s3 s6 id).length
          then acc + SECTION_HEADER_LEN + (sDict e s3 s6 id).length
          else acc)
      SCPECG_HEADER_LEN)
    ++ ([0, 1, 2, 3, 6].map
          (fun id =>
            if 0 < (sDict e s3 s6 id).length
              then pack_section id (sDict e s3 s6 id)
              else [])).flatten

/-- The record `scp_ecg` of lines 146-157, `none` when building a section
payload raised. -/
def scpRecord (e : ECGBasic) : Option (List Nat) :=
  (section3 e).bind fun s3 =>
    (section6 e).map fun s6 => assembleRecord e s3 s6

/-- `export_scp` (lines 60-163): the complete byte stream written to the
output file, `crc ++ scp_ecg` with the 2-byte little-endian
`binascii.crc_hqx(scp_ecg, 0xffff)` in front; `none` when the export
raises, in which case no file is written. -/
def export_scp (e : ECGBasic) : Option (List Nat) :=
  (scpRecord e).map fun rec => u16le (crc_hqx rec 65535) ++ rec

/-! ### Claim-side definitions

Decoders and spec-side formulations used only to state the claims; they
are written from the claims' words and compared against the builders
above. -/

/-- Little-endian value of a byte list. -/
def leNat : List Nat → Nat
  | [] => 0
  | b :: bs => b % 256 + 256 * leNat bs

/-- The declared length stored in pointer entry `id` of a Section 0
payload: the 4 bytes at offset `POINTER_FIELD_LEN * id + 2`,
little-endian. -/
def tableEntryLength (tbl : List Nat) (id : Nat) : Nat :=
  leNat ((tbl.drop (POINTER_FIELD_LEN * id + 2)).take 4)

/-- The absolute offset stored in pointer entry `id` of a Section 0
payload: the 4 bytes at offset `POINTER_FIELD_LEN * id + 6`,
little-endian. -/
def tableEntryOffset (tbl : List Nat) (id : Nat) : Nat :=
  leNat ((tbl.drop (POINTER_FIELD_LEN * id + 6)).take 4)

/-- Spec-side record size (claim C5): the fixed record header length plus,
for each section id 0..11 with nonzero payload, `SECTION_HEADER_LEN` plus
that payload's length. -/
def specSize (payload : Nat → List Nat) : Nat :=
  (List.range 12).foldl
    (fun acc id =>
      if 0 < (payload id).length
        then acc + SECTION_HEADER_LEN + (payload id).length
        else acc)
    SCPECG_HEADER_LEN

/-- Spec-side section blocks (claim C5): exactly the nonzero sections among
ids 0..11, in ascending id order, each wrapped by `pack_section`; sections
with empty payload are absent. -/
def specBlocks (payload : Nat → List Nat) : List Nat :=
  ((List.range 12).map
      (fun id =>
        if 0 < (payload id).length
          then pack_section id (payload id)
          else [])).flatten

/-- Claim C1's consistency property, stated from the claim's words: for an
export that succeeds, each populated section id (1, 3, 6) has a pointer
entry recording length `SECTION_HEADER_LEN` plus its final payload length,
each entry's offset is the running cursor advanced by the previous declared
lengths starting right after the record preamble, and the last offset plus
length reaches the end of the emitted file (so the entries tile the bytes
following the size field). -/
def pointerTableConsistent (e : ECGBasic) : Prop :=
  ∀ s3 s6 out, section3 e = some s3 → section6 e = some s6 →
    export_scp e = some out →
    (tableEntryLength section0 1 = SECTION_HEADER_LEN + (section1 e).length
      ∧ tableEntryLength section0 3 = SECTION_HEADER_LEN + s3.length
      ∧ tableEntryLength section0 6 = SECTION_HEADER_LEN + s6.length)
    ∧ tableEntryOffset section0 0 = SCPECG_HEADER_LEN + 1
    ∧ (∀ id < 11, tableEntryOffset section0 (id + 1)
        = tableEntryOffset section0 id + tableEntryLength section0 id)
    ∧ tableEntryOffset section0 11 + tableEntryLength section0 11
        = out.length + 1

/-- A one-lead, one-sample, all-zero recording. -/
def recOne : RecData := ⟨1, 1, fun _ _ => 0⟩

/-- A one-lead, 40000-sample, all-zero recording (the spec's sample-cap
scenario). -/
def recBig : RecData := ⟨1, 40000, fun _ _ => 0⟩

/-- A one-lead, one-sample recording whose sample value 40000 does not fit
a signed 16-bit value. -/
def recWide : RecData := ⟨1, 1, fun _ _ => 40000⟩

/-- A one-lead recording with `2^32` samples: the Section 3 ending-sample
index does not fit the 4-byte field. -/
def recHuge : RecData := ⟨1, 4294967296, fun _ _ => 0⟩

/-- A thirteen-lead recording: more leads than the fixed order table
covers. -/
def rec13 : RecData := ⟨13, 1, fun _ _ => 0⟩

/-- The spec's round-trip recording shape: 12 leads, 5000 samples. -/
def rec12 : RecData := ⟨12, 5000, fun _ _ => 0⟩

/-- A recording equal to `recOne` inside its 1×1 shape but different
outside it. -/
def recAlt : RecData := ⟨1, 1, fun i j => if i = 0 ∧ j = 0 then 0 else 5⟩

/-! ### Helper lemmas -/

theorem lookup_lead_lt {i : Nat} (h : i < 12) :
    LEADS_ORDER_GENERAL i = some (leadCode i) := by
  interval_cases i <;> rfl

theorem lookup_lead_ge {i : Nat} (h : 12 ≤ i) :
    LEADS_ORDER_GENERAL i = none :=
  List.get?_len_le (by simpa [leadCodeList] using h)

theorem packLeadEntries_eq (e : ECGBasic) (hns : e.n_samples < 4294967296) :
    ∀ l : List Nat, (∀ i ∈ l, i < 12) →
      packLeadEntries e l
        = some ((l.map fun i =>
            u32le 1 ++ u32le e.n_samples ++ u8 (leadCode i)).flatten) := by
  intro l
  induction l with
  | nil => intro _; rfl
  | cons i is ih =>
    intro h
    rw [packLeadEntries, lookup_lead_lt (h i (List.mem_cons_self i is))]
    simp [hns, ih (fun x hx => h x (List.mem_cons_of_mem i hx))]

theorem section3_eq (e : ECGBasic) (h12 : e.n_leads ≤ 12)
    (hns : 0 < e.n_leads → e.n_samples < 4294967296) :
    section3 e
      = some (u8 e.n_leads
          ++ u8 (ALL_SIMULTANEOUS_READ ||| (e.n_leads <<< 3))
          ++ ((List.range e.n_leads).map fun i =>
                u32le 1 ++ u32le e.n_samples ++ u8 (leadCode i)).flatten) := by
  rcases Nat.eq_zero_or_pos e.n_leads with h0 | hpos
  · simp [section3, h0, packLeadEntries]
  · rw [section3, packLeadEntries_eq e (hns hpos) _
      (fun i hi => lt_of_lt_of_le (List.mem_range.1 hi) h12)]
    rfl

theorem packSamples_eq (row : Nat → Int) :
    ∀ l : List Nat, (∀ j ∈ l, int16ok (row j)) →
      packSamples row l = some ((l.map fun j => i16le (row j)).flatten) := by
  intro l
  induction l with
  | nil => intro _; rfl
  | cons j js ih =>
    intro h
    rw [packSamples, if_pos (h j (List.mem_cons_self j js))]
    simp [ih (fun x hx => h x (List.mem_cons_of_mem j hx))]

theorem packAllSeries_eq (e : ECGBasic) :
    ∀ l : List Nat,
      (∀ i ∈ l, ∀ j < cappedSamples e, int16ok (e.data.data i j)) →
      packAllSeries e l
        = some ((l.map fun i =>
            ((List.range (cappedSamples e)).map fun j =>
              i16le (e.data.data i j)).flatten).flatten) := by
  intro l
  induction l with
  | nil => intro _; rfl
  | cons i is ih =>
    intro h
    rw [packAllSeries,
      packSamples_eq (e.data.data i) _
        (fun j hj => h i (List.mem_cons_self i is) j (List.mem_range.1 hj))]
    simp [ih (fun x hx => h x (List.mem_cons_of_mem i hx))]

theorem section6_eq (e : ECGBasic) (hr : 0 < e.sample_rate)
    (ha : e.ampl_nanovolt < 65536) (hi : 1000000 / e.sample_rate < 65536)
    (hs : ∀ i < e.n_leads, ∀ j < cappedSamples e, int16ok (e.data.data i j)) :
    section6 e
      = some (u16le e.ampl_nanovolt
          ++ u16le (1000000 / e.sample_rate)
          ++ u8 ENCODING_REAL
          ++ u8 BIMODAL_COMPRESSION_FALSE
          ++ ((List.range e.n_leads).map
                (fun _ => u16le (2 * cappedSamples e))).flatten
          ++ ((List.range e.n_leads).map fun i =>
                ((List.range (cappedSamples e)).map fun j =>
                  i16le (e.data.data i j)).flatten).flatten) := by
  rw [section6, if_pos ⟨hr, ha, hi⟩,
    packAllSeries_eq e _ (fun i hi => hs i (List.mem_range.1 hi))]
  rfl

theorem scpRecord_eq (e : ECGBasic) {s3 s6 : List Nat}
    (h3 : section3 e = some s3) (h6 : section6 e = some s6) :
    scpRecord e = some (assembleRecord e s3 s6) := by
  simp [scpRecord, h3, h6]

theorem export_scp_eq (e : ECGBasic) {s3 s6 : List Nat}
    (h3 : section3 e = some s3) (h6 : section6 e = some s6) :
    export_scp e
      = some (u16le (crc_hqx (assembleRecord e s3 s6) 65535)
          ++ assembleRecord e s3 s6) := by
  simp [export_scp, scpRecord_eq e h3 h6]

theorem exportOfData_some (d : RecData) (h12 : d.n_leads ≤ 12)
    (hns : 0 < d.n_leads → d.n_samples < 4294967296)
    (hsmp : ∀ i < d.n_leads, ∀ j < min d.n_samples 32767, int16ok (d.data i j)) :
    ∃ s3 s6, section3 (ECGBasic.ofData d) = some s3
      ∧ section6 (ECGBasic.ofData d) = some s6
      ∧ export_scp (ECGBasic.ofData d)
          = some (u16le (crc_hqx (assembleRecord (ECGBasic.ofData d) s3 s6) 65535)
              ++ assembleRecord (ECGBasic.ofData d) s3 s6) := by
  have h3 := section3_eq (ECGBasic.ofData d) h12 hns
  have h6 := section6_eq (ECGBasic.ofData d) (by norm_num [ECGBasic.ofData])
    (by norm_num [ECGBasic.ofData]) (by norm_num [ECGBasic.ofData]) hsmp
  exact ⟨_, _, h3, h6, export_scp_eq _ h3 h6⟩

theorem section1_length_pos (e : ECGBasic) : 0 < (section1 e).length := by
  simp [section1, section1Tags, make_tag, u8, u16le, List.foldl]

theorem assembleRecord_spec (e : ECGBasic) (s3 s6 : List Nat) :
    u32le (specSize (sDict e s3 s6)) ++ specBlocks (sDict e s3 s6)
      = assembleRecord e s3 s6 := by
  have hr : List.range 12 = [0, 1, 2, 3, 4, 5, 6, 7, 8, 9, 10, 11] := rfl
  have h0 : section0.length = 120 := rfl
  simp only [specSize, specBlocks, assembleRecord, sDict, hr, List.foldl,
    List.map, List.flatten, h0]
  norm_num

theorem packLeadEntries_congr (e1 e2 : ECGBasic)
    (hs : e1.n_samples = e2.n_samples) :
    ∀ l : List Nat, packLeadEntries e1 l = packLeadEntries e2 l := by
  intro l
  induction l with
  | nil => rfl
  | cons i is ih => rw [packLeadEntries, packLeadEntries, hs, ih]

theorem packSamples_congr (row1 row2 : Nat → Int) :
    ∀ l : List Nat, (∀ j ∈ l, row1 j = row2 j) →
      packSamples row1 l = packSamples row2 l := by
  intro l
  induction l with
  | nil => intro _; rfl
  | cons j js ih =>
    intro h
    rw [packSamples, packSamples, h j (List.mem_cons_self j js),
      ih (fun x hx => h x (List.mem_cons_of_mem j hx))]

theorem packAllSeries_congr (e1 e2 : ECGBasic)
    (hcap : cappedSamples e1 = cappedSamples e2) :
    ∀ l : List Nat,
      (∀ i ∈ l, ∀ j < cappedSamples e1, e1.data.data i j = e2.data.data i j) →
      packAllSeries e1 l = packAllSeries e2 l := by
  intro l
  induction l with
  | nil => intro _; rfl
  | cons i is ih =>
    intro h
    rw [packAllSeries, packAllSeries, ih (fun x hx => h x (List.mem_cons_of_mem i hx)),
      ← hcap, packSamples_congr (e1.data.data i) (e2.data.data i) _
        (fun j hj => h i (List.mem_cons_self i is) j (List.mem_range.1 hj))]

theorem packLeadEntries_none (e : ECGBasic) :
    ∀ l : List Nat, (∃ i ∈ l, 12 ≤ i) → packLeadEntries e l = none := by
  intro l
  induction l with
  | nil => rintro ⟨i, hi, _⟩; simp at hi
  | cons i is ih =>
    rintro ⟨x, hx, h12⟩
    rcases List.mem_cons.1 hx with rfl | hmem
    · rw [packLeadEntries, lookup_lead_ge h12]; rfl
    · rw [packLeadEntries]
      cases hlk : LEADS_ORDER_GENERAL i with
      | none => rfl
      | some lid => simp [ih ⟨x, hmem, h12⟩]

/-! ### Claim theorems -/

/-- C1: the claim says that for every recording exported, the Section 0
pointer table is consistent with the assembled record.  The code builds
the table before the payloads exist: at the one-lead, one-sample recording
`recOne`, the export succeeds and emits 306 bytes, sections 1, 3, 6 have
payload lengths 95, 11 and 10, yet their pointer entries all record
length 0, and the last entry's offset plus length is 143, far short of the
file end — the entries do not tile the record. -/
theorem c1_pointer_table_stale :
    (export_scp (ECGBasic.ofData recOne)).map List.length = some 306
    ∧ tableEntryLength section0 1 = 0
    ∧ (section1 (ECGBasic.ofData recOne)).length = 95
    ∧ (section3 (ECGBasic.ofData recOne)).map List.length = some 11
    ∧ (section6 (ECGBasic.ofData recOne)).map List.length = some 10
    ∧ tableEntryLength section0 3 = 0
    ∧ tableEntryLength section0 6 = 0
    ∧ tableEntryOffset section0 1 = 143
    ∧ tableEntryOffset section0 11 + tableEntryLength section0 11 = 143 :=
  ⟨rfl, rfl, rfl, rfl, rfl, rfl, rfl, rfl, rfl⟩

/-- C2 (counterexample): the claim quantifies over every recording, but a
one-lead, one-sample recording whose sample value is 40000 makes
`struct.pack('<h', ...)` raise, so the export fails and no Section 6
payload is produced. -/
theorem c2_sample_range_cex : export_scp (ECGBasic.ofData recWide) = none :=
  rfl

/-- C2 (amended): for every recording whose encoded samples fit a signed
16-bit value, with at most 12 leads and (when a lead exists) fewer than
2^32 samples, the Section 6 payload declares per lead a byte count of
`2 * min(n_samples, 32767)`, encodes exactly `min(n_samples, 32767)`
16-bit signed little-endian values per lead — samples beyond the cap are
silently dropped — and the export does not fail. -/
theorem c2_section6_sample_cap (d : RecData) (h12 : d.n_leads ≤ 12)
    (hns : 0 < d.n_leads → d.n_samples < 4294967296)
    (hsmp : ∀ i < d.n_leads, ∀ j < min d.n_samples 32767, int16ok (d.data i j)) :
    section6 (ECGBasic.ofData d)
      = some (u16le 5000 ++ u16le 2000
          ++ u8 ENCODING_REAL ++ u8 BIMODAL_COMPRESSION_FALSE
          ++ ((List.range d.n_leads).map
                (fun _ => u16le (2 * min d.n_samples 32767))).flatten
          ++ ((List.range d.n_leads).map fun i =>
                ((List.range (min d.n_samples 32767)).map fun j =>
                  i16le (d.data i j)).flatten).flatten)
    ∧ (export_scp (ECGBasic.ofData d)).isSome := by
  have hdiv : 1000000 / (ECGBasic.ofData d).sample_rate = 2000 := by
    norm_num [ECGBasic.ofData]
  constructor
  · rw [section6_eq (ECGBasic.ofData d) (by norm_num [ECGBasic.ofData])
      (by norm_num [ECGBasic.ofData]) (by rw [hdiv]; norm_num) hsmp, hdiv]
    rfl
  · obtain ⟨s3, s6, _, _, hout⟩ := exportOfData_some d h12 hns hsmp
    rw [hout]; rfl

/-- C2 (witness): the 40000-sample single-lead zero recording satisfies the
amended hypotheses, its Section 6 payload is built and its export
succeeds. -/
theorem c2_section6_sample_cap_witness :
    (section6 (ECGBasic.ofData recBig)).isSome
    ∧ (export_scp (ECGBasic.ofData recBig)).isSome := by
  have h := c2_section6_sample_cap recBig (by norm_num [recBig])
    (fun _ => by norm_num [recBig])
    (fun i hi j hj => by norm_num [int16ok, recBig])
  exact ⟨by rw [h.1]; rfl, h.2⟩

/-- C3: a recording with more leads than the 12-entry order table covers
(and no custom mapping — the table is the fixed `LEADS_ORDER_GENERAL`)
makes the export fail: the lead-code lookup raises before the record is
assembled, no byte stream is produced and no file is written. -/
theorem c3_lead_overflow (d : RecData) (h : 12 < d.n_leads) :
    export_scp (ECGBasic.ofData d) = none := by
  have h3 : section3 (ECGBasic.ofData d) = none := by
    rw [section3, packLeadEntries_none (ECGBasic.ofData d)
      (List.range (ECGBasic.ofData d).n_leads)
      ⟨12, List.mem_range.2 h, Nat.le_refl 12⟩]
    rfl
  simp [export_scp, scpRecord, h3]

/-- C3 (witness): the thirteen-lead recording is rejected. -/
theorem c3_lead_overflow_witness : export_scp (ECGBasic.ofData rec13) = none :=
  c3_lead_overflow rec13 (by norm_num [rec13])

/-- C4: every emitted file is `CRC ++ record` where the CRC is the 2-byte
little-endian CRC-CCITT/XModem checksum (initial register 0xFFFF, no final
xor) of exactly the record (size field ++ sections); recomputing that CRC
over bytes 2..end of the file yields the stored first two bytes. -/
theorem c4_crc_stream (e : ECGBasic) (out : List Nat)
    (hout : export_scp e = some out) :
    ∃ rec, scpRecord e = some rec
      ∧ out = u16le (crc_hqx rec 65535) ++ rec
      ∧ out.take 2 = u16le (crc_hqx (out.drop 2) 65535) := by
  rw [export_scp] at hout
  obtain ⟨rec, hrec, hf⟩ := Option.map_eq_some'.1 hout
  subst hf
  exact ⟨rec, hrec, rfl, by simp [u16le]⟩

/-- C4 (witness): the one-lead, one-sample zero recording exports
successfully and its checksum satisfies the property. -/
theorem c4_crc_stream_witness :
    ∃ out, export_scp (ECGBasic.ofData recOne) = some out
      ∧ out.take 2 = u16le (crc_hqx (out.drop 2) 65535) := by
  obtain ⟨s3, s6, h3, h6, hout⟩ := exportOfData_some recOne
    (by norm_num [recOne]) (fun _ => by norm_num [recOne])
    (fun i hi j hj => by norm_num [int16ok, recOne])
  obtain ⟨rec, _, _, hcrc⟩ := c4_crc_stream (ECGBasic.ofData recOne) _ hout
  exact ⟨_, hout, hcrc⟩

/-- C5: for every recording whose export succeeds, the record (the file
bytes after the 2-byte CRC) is a 4-byte little-endian size field —
the fixed record header length plus, for each section with nonzero
payload, `SECTION_HEADER_LEN` plus that payload's length — followed by
exactly the nonzero sections among ids 0..11 in ascending section-id
order, each wrapped by `pack_section`; sections with empty payload are
absent. -/
theorem c5_record_assembly (e : ECGBasic) (s3 s6 out : List Nat)
    (h3 : section3 e = some s3) (h6 : section6 e = some s6)
    (hout : export_scp e = some out) :
    out.drop 2
      = u32le (specSize (sDict e s3 s6)) ++ specBlocks (sDict e s3 s6) := by
  rw [export_scp_eq e h3 h6] at hout
  obtain rfl := Option.some.inj hout
  rw [← assembleRecord_spec e s3 s6]
  simp [u16le]

/-- C5 (witness): the record layout at the one-lead, one-sample zero
recording. -/
theorem c5_record_assembly_witness :
    ∃ s3 s6 out, section3 (ECGBasic.ofData recOne) = some s3
      ∧ section6 (ECGBasic.ofData recOne) = some s6
      ∧ export_scp (ECGBasic.ofData recOne) = some out
      ∧ out.drop 2 = u32le (specSize (sDict (ECGBasic.ofData recOne) s3 s6))
          ++ specBlocks (sDict (ECGBasic.ofData recOne) s3 s6) := by
  obtain ⟨s3, s6, h3, h6, hout⟩ := exportOfData_some recOne
    (by norm_num [recOne]) (fun _ => by norm_num [recOne])
    (fun i hi j hj => by norm_num [int16ok, recOne])
  exact ⟨s3, s6, _, h3, h6, hout, c5_record_assembly _ _ _ _ h3 h6 hout⟩

/-- C6 (counterexample): the claim quantifies over every recording with at
most 12 leads, but at one lead and `2^32` samples the 4-byte ending-sample
field cannot be packed (`struct.error`), so no Section 3 payload is
produced. -/
theorem c6_huge_sample_count_cex : section3 (ECGBasic.ofData recHuge) = none :=
  rfl

/-- C6 (amended): for every recording with at most 12 leads (and fewer
than `2^32` samples when at least one lead is present, so the ending
sample index fits its 4-byte field), the Section 3 payload is one byte
lead count, one flag byte `ALL_SIMULTANEOUS_READ` OR'd with
`lead_count <<< 3`, then per lead in the canonical table order a 4-byte
starting sample index 1, a 4-byte ending sample index equal to the total
sample count, and the 1-byte standard lead code of the fixed table. -/
theorem c6_lead_definition (d : RecData) (h12 : d.n_leads ≤ 12)
    (hns : 0 < d.n_leads → d.n_samples < 4294967296) :
    section3 (ECGBasic.ofData d)
      = some (u8 d.n_leads
          ++ u8 (ALL_SIMULTANEOUS_READ ||| (d.n_leads <<< 3))
          ++ ((List.range d.n_leads).map fun i =>
                u32le 1 ++ u32le d.n_samples ++ u8 (leadCode i)).flatten) :=
  section3_eq (ECGBasic.ofData d) h12 hns

/-- C6 (witness): the 12-lead, 5000-sample recording of the spec's
round-trip scenario has a Section 3 payload. -/
theorem c6_lead_definition_witness :
    (section3 (ECGBasic.ofData rec12)).isSome := by
  rw [c6_lead_definition rec12 (by norm_num [rec12]) (fun _ => by norm_num [rec12])]
  rfl

/-- C7: export is deterministic and depends only on the recording's shape,
the sample values inside that shape, and the metadata and configuration
attributes: two instances agreeing on all of those (even if their data
functions differ outside the shape) export identical byte streams. -/
theorem c7_deterministic (e1 e2 : ECGBasic)
    (hl : e1.data.n_leads = e2.data.n_leads)
    (hs : e1.data.n_samples = e2.data.n_samples)
    (hd : ∀ i j, i < e1.data.n_leads → j < e1.data.n_samples →
        e1.data.data i j = e2.data.data i j)
    (hrate : e1.sample_rate = e2.sample_rate)
    (hampl : e1.ampl_nanovolt = e2.ampl_nanovolt)
    (ht : e1.timestamp = e2.timestamp)
    (hname : e1.patient_name = e2.patient_name)
    (hcase : e1.patient_case = e2.patient_case)
    (hsex : e1.patient_sex = e2.patient_sex)
    (hweight : e1.patient_weight = e2.patient_weight)
    (hage : e1.patient_age = e2.patient_age) :
    export_scp e1 = export_scp e2 := by
  have h1 : section1 e1 = section1 e2 := by
    simp [section1, section1Tags, hname, hcase, hsex, hweight, hage, ht]
  have h3 : section3 e1 = section3 e2 := by
    simp [section3, ECGBasic.n_leads, ECGBasic.n_samples, hl, hs,
      packLeadEntries_congr e1 e2 hs]
  have hcap : cappedSamples e1 = cappedSamples e2 := by
    simp [cappedSamples, ECGBasic.n_samples, hs]
  have hpack : packAllSeries e1 (List.range e2.data.n_leads)
      = packAllSeries e2 (List.range e2.data.n_leads) :=
    packAllSeries_congr e1 e2 hcap _ (fun i hi j hj =>
      hd i j (by have := List.mem_range.1 hi; omega)
        (lt_of_lt_of_le hj (Nat.min_le_left _ _)))
  have h6 : section6 e1 = section6 e2 := by
    simp only [section6, ECGBasic.n_leads, ECGBasic.n_samples, hl, hs,
      hrate, hampl, hcap, hpack]
  have hass : ∀ s3 s6, assembleRecord e1 s3 s6 = assembleRecord e2 s3 s6 := by
    intro s3 s6
    simp [assembleRecord, sDict, h1]
  have hrec : scpRecord e1 = scpRecord e2 := by
    rw [scpRecord, scpRecord, h3, h6]
    cases section3 e2 <;> cases section6 e2 <;> simp [hass]
  rw [export_scp, export_scp, hrec]

/-- C7 (witness): `recOne` and `recAlt` agree inside the 1×1 shape but
differ outside it; their exports coincide. -/
theorem c7_deterministic_witness :
    export_scp (ECGBasic.ofData recOne) = export_scp (ECGBasic.ofData recAlt) :=
  c7_deterministic (ECGBasic.ofData recOne) (ECGBasic.ofData recAlt)
    rfl rfl
    (fun i j hi hj => by
      have hi0 : i = 0 := by
        simpa [recOne, ECGBasic.ofData] using hi
      have hj0 : j = 0 := by
        simpa [recOne, ECGBasic.ofData] using hj
      subst hi0; subst hj0; rfl)
    rfl rfl rfl rfl rfl rfl rfl rfl

/-- C8: constructing `ECGBasic` with `data=None` always fails instead of
producing a default all-zero recording, because the default-array
expression reads the `n_leads`/`n_samples` properties — and hence the
`data` attribute — before that attribute has been assigned. -/
theorem c8_init_without_data_fails : ECGBasic.init none = none := rfl

/-- C9: the sex byte written under the Section 1 sex tag is `sexCode` of
`patient_sex`: the male code for 1, the female code for 0, the unknown
code for every other value — in particular 0 is encoded as female, which
differs from the unknown code. -/
theorem c9_sex_byte (e : ECGBasic) :
    List.lookup TAG_PATIENT_SEX (section1Tags e)
        = some (u8 (sexCode e.patient_sex))
    ∧ (e.patient_sex = 1 → sexCode e.patient_sex = SEX_MALE)
    ∧ (e.patient_sex = 0 → sexCode e.patient_sex = SEX_FEMALE)
    ∧ (e.patient_sex ≠ 1 → e.patient_sex ≠ 0 →
        sexCode e.patient_sex = SEX_UNKNOWN)
    ∧ SEX_FEMALE ≠ SEX_UNKNOWN := by
  refine ⟨rfl, ?_, ?_, ?_, by decide⟩
  · intro h; simp [sexCode, h]
  · intro h; simp [sexCode, h]
  · intro h1 h0; simp [sexCode, h1, h0]

/-- C9 (witness): the default metadata has `patient_sex = 0` and its sex
tag carries the female code. -/
theorem c9_sex_byte_witness :
    List.lookup TAG_PATIENT_SEX (section1Tags (ECGBasic.ofData recOne))
        = some (u8 (sexCode 0))
    ∧ sexCode 0 = SEX_FEMALE := by
  have h := c9_sex_byte (ECGBasic.ofData recOne)
  exact ⟨h.1, h.2.2.1 rfl⟩

/-- C10: the patient-identifier tag (entry 0) and the patient-last-name
tag (entry 2) of Section 1 both carry the same null-terminated patient
name; the case identifier appears under the ECG sequence-number tag
(entry 1), and changing the case identifier changes no other entry of the
tag list. -/
theorem c10_name_case_tags (e : ECGBasic) (c : String) :
    (section1Tags e)[0]? = some (TAG_PATIENT_ID, make_asciiz e.patient_name)
    ∧ (section1Tags e)[2]?
        = some (TAG_PATIENT_LAST_NAME, make_asciiz e.patient_name)
    ∧ (section1Tags e)[1]? = some (TAG_ECG_SEQ_NUM, make_asciiz e.patient_case)
    ∧ (section1Tags { e with patient_case := c })[1]?
        = some (TAG_ECG_SEQ_NUM, make_asciiz c)
    ∧ ∀ k, k ≠ 1 →
        (section1Tags { e with patient_case := c })[k]? = (section1Tags e)[k]? := by
  refine ⟨rfl, rfl, rfl, rfl, ?_⟩
  intro k hk
  match k with
  | 0 => rfl
  | 1 => exact absurd rfl hk
  | 2 => rfl
  | 3 => rfl
  | 4 => rfl
  | 5 => rfl
  | 6 => rfl
  | 7 => rfl
  | 8 => rfl
  | 9 => rfl
  | n + 10 => rfl

/-- C10 (witness): at the default instance and a fresh case string, the
name/case tag layout holds; entry 3 (the sex tag) is unaffected by the
case change. -/
theorem c10_name_case_tags_witness :
    (section1Tags (ECGBasic.ofData recOne))[0]?
        = some (TAG_PATIENT_ID, make_asciiz ("anonymized"))
    ∧ (section1Tags { ECGBasic.ofData recOne with patient_case := "case9" })[3]?
        = (section1Tags (ECGBasic.ofData recOne))[3]? := by
  have h := c10_name_case_tags (ECGBasic.ofData recOne) ("case9")
  exact ⟨h.1, h.2.2.2.2 3 (by decide)⟩
